import Mathlib

/-!
A shallow embedding of `src/applications/osgearth_package2/osgearth_package.cpp`,
the osgEarth TMS packaging tool.

The configuration logic of `makeTMS` and `main` is translated directly from the
source.  External collaborators that live outside this file in the osgEarth
libraries (loading the earth file, `TaskList::load`, the OGR feature source,
`GeoExtent::transform`, directory creation, `osgDB::writeNodeFile`) are opaque
parameters gathered in an `Env` record; they are invoked exactly where the
source invokes them.  The observable behaviour of one invocation is a
`RunResult`: the process exit code, the fully configured tile visitor, the
packager destination, the ordered trace of `packager.run` / `packager.writeXML`
calls, and whether the optional companion earth-file write was attempted and
failed.

Coordinates in the source are `double`s, but this tool never computes with
them — it only collects them and hands them to the visitor — so `Bounds`
carries them opaquely with `Int` components.
-/

/-- A tile address, `TileKey` of the osgEarth library: (level, column, row). -/
structure TileKey where
  level : Nat
  column : Nat
  row : Nat
deriving DecidableEq

/-- An axis-aligned bounding box, `osgEarth::Bounds`.  The coordinate payload is
opaque to this tool (it is produced by `--bounds` parsing or by the feature
source and passed through to `addExtent` unchanged), so we carry it as `Int`. -/
structure Bounds where
  xMin : Int
  yMin : Int
  xMax : Int
  yMax : Int
deriving DecidableEq

/-- The command-line arguments of one invocation, as `main`/`makeTMS` read them
with `osg::ArgumentParser`.  Flags the source reads in a `while` loop accept
repeated occurrences, each overwriting the previous value; for the two level
flags we keep the full occurrence list and model the loop by a fold
(`readLast`).  `argv` is the raw argument vector after the program name, used by
`findArgumentWithExtension` and by the `--mp` base-command earth-file search;
flag parameters that themselves end in `.earth` or follow the earth file are
assumed absent, as in every ordinary invocation. -/
structure Args where
  tms : Bool := false
  argv : List String := []
  minLevelArgs : List Nat := []
  maxLevelArgs : List Nat := []
  boundsArgs : List Bounds := []
  tiles : String := ""
  verbose : Bool := false
  batchSize : Nat := 0
  concurrency : Nat := 0
  indexArgs : List String := []
  ext : String := ""
  out : Option String := none
  overwrite : Bool := false
  outEarth : String := ""
  dbOptions : String := ""
  keepEmpties : Bool := false
  continueSingleColor : Bool := false
  elevationPixelDepth : Nat := 32
  imageLayerIndex : Int := -1
  elevationLayerIndex : Int := -1
  mt : Bool := false
  mp : Bool := false

/-- The external collaborators of `makeTMS`, invoked through narrow interfaces.
`taskKeys` models `TaskList::load` followed by `getKeys` on the given task
file; `featureBounds` models iterating the feature cursor of an `--index`
source and taking each feature's geometry bounds (in the feature's own SRS);
`transformToMapSRS` models `GeoExtent::transform` into the map's spatial
reference, applied to one feature's bounds; `dirExistsAfterMkdir` models
`osgDB::fileExists` evaluated after the `osgDB::makeDirectory` attempt;
`writeNodeFileOk` models whether `osgDB::writeNodeFile` succeeds on a path. -/
structure Env where
  mapValid : Bool := true
  taskKeys : String → List TileKey := fun _ => []
  featureBounds : String → List Bounds := fun _ => []
  transformToMapSRS : Bounds → Bounds := fun b => b
  dirExistsAfterMkdir : String → Bool := fun _ => true
  numImageLayers : Nat := 0
  numElevationLayers : Nat := 0
  writeNodeFileOk : String → Bool := fun _ => true

/-- The visitor strategy selected by `makeTMS`, with its strategy-specific
configuration: `TileKeyListVisitor::setKeys`, `MultithreadedTileVisitor`
(`setNumThreads` only when `concurrency > 0`), `MultiprocessTileVisitor`
(`setNumProcesses` / `setBatchSize` only when positive, plus the reconstructed
base command line, kept as its whitespace-separated tokens), or the plain
sequential `TileVisitor`. -/
inductive VisitorKind where
  | keyList (keys : List TileKey)
  | multithreaded (numThreads : Option Nat)
  | multiprocess (numProcesses : Option Nat) (batchSize : Option Nat) (baseCommand : List String)
  | sequential
deriving DecidableEq

/-- The tile visitor as configured right before `packager.run`: strategy,
`setMinLevel` / `setMaxLevel` values, and the extents handed to `addExtent`
(in order). -/
structure VisitorState where
  kind : VisitorKind
  minLevel : Nat
  maxLevel : Nat
  extents : List Bounds
deriving DecidableEq

/-- Which kind of layer a packager call addresses. -/
inductive LayerKind where
  | image
  | elevation
deriving DecidableEq

/-- One `packager.run(layer, profile)` invocation: the layer addressed, the
packager's current extension (`none` when `setExtension` was never called), and
the multiprocess visitor's current base command (`none` when the visitor is not
a `MultiprocessTileVisitor`). -/
structure RunCall where
  kind : LayerKind
  idx : Nat
  ext : Option String
  baseCmd : Option (List String)
deriving DecidableEq

/-- An event of the packaging phase: a `packager.run` call or a
`packager.writeXML` call. -/
inductive PkgEvent where
  | run (c : RunCall)
  | xml (k : LayerKind) (i : Nat)
deriving DecidableEq

/-- The observable outcome of one invocation. -/
structure RunResult where
  exitCode : Int
  visitor : Option VisitorState := none
  destination : Option String := none
  trace : List PkgEvent := []
  earthWriteAttempted : Bool := false
  earthWriteFailed : Bool := false
deriving DecidableEq

/-- Models a `while (args.read("--flag", v))` loop: each occurrence overwrites
`v`, so the last occurrence wins and the initial value survives only when the
flag is absent. -/
def readLast (dflt : Nat) (occs : List Nat) : Nat :=
  occs.foldl (fun _ v => v) dflt

/-- Models the loop at the top of `makeTMS` that erases every double-quote
character from the `--db-options` string (character code 34). -/
def stripQuotes (s : String) : String :=
  String.mk (s.data.filter (fun c => c ≠ Char.ofNat 34))

/-- `findArgumentWithExtension(args, ".earth")`: the first argument that, after
trimming and lowercasing, ends in `.earth`; the empty string when there is
none. -/
def findArgumentWithExtension (argv : List String) : String :=
  match argv.find? (fun arg => (arg.trim.toLower).endsWith ".earth") with
  | some a => a
  | none => ""

/-- `osg::ArgumentParser::isOption`: an argument whose first character is a
dash. -/
def isOptionArg (s : String) : Bool :=
  match s.data with
  | [] => false
  | c :: _ => decide (c = '-')

/-- The earth-file search of the `--mp` branch (source lines 277-284): scan the
arguments from position 1, remembering the last one that is not an option,
starting from the empty string. -/
def lastNonOptionArg (argv : List String) : String :=
  (argv.filter (fun s => !isOptionArg s)).foldl (fun _ v => v) ""

/-- `osgDB::concatPaths`. -/
def concatPaths (a b : String) : String :=
  if a = "" then b else a ++ "/" ++ b

/-- `osgDB::getSimpleFileName`: the last path component. -/
def getSimpleFileName (p : String) : String :=
  ((p.splitOn "/").getLast?).getD p

/-- The root output folder: the `--out` value, or `<earthFile>.tms_repo` when
`--out` is absent (source lines 183-186). -/
def rootFolderOf (a : Args) : String :=
  match a.out with
  | some p => p
  | none => findArgumentWithExtension a.argv ++ ".tms_repo"

/-- The companion earth-file output path computed at source line 371. -/
def outEarthFileOf (a : Args) : String :=
  concatPaths (rootFolderOf a) (getSimpleFileName a.outEarth)

/-- The base command line the `--mp` branch reconstructs for spawned workers
(source lines 285-326), as its whitespace-separated tokens.  Two details are
taken from the source as written:
the extension is serialized under the token `--extension` (line 291), and the
`overwrite` case appends nothing, because line 296 reads
`baseCommand < " --overwrite "` — a relational comparison between the stream's
conversion and the string literal whose result is discarded, not an insertion —
so the `overwrite` argument of this function is deliberately unused. -/
def baseCommandTokens (a : Args) : List String :=
  ["osgearth_package2", "--tms"]
  ++ (if a.ext ≠ "" then ["--extension", a.ext] else [])
  ++ (if stripQuotes a.dbOptions ≠ "" then ["--db-options", stripQuotes a.dbOptions] else [])
  ++ (if a.keepEmpties then ["--keep-empties"] else [])
  ++ (if a.continueSingleColor then ["--continue-single-color"] else [])
  ++ ["--elevation-pixel-depth", toString a.elevationPixelDepth]
  ++ (if a.imageLayerIndex ≥ 0 then ["--image", toString a.imageLayerIndex]
      else if a.elevationLayerIndex ≥ 0 then ["--elevation", toString a.elevationLayerIndex]
      else [])
  ++ [lastNonOptionArg a.argv]

/-- Visitor selection (source lines 233-334): a nonempty `--tiles` value wins
and yields a `TileKeyListVisitor` over the keys loaded from the task file; only
when no task file was given are `--mt`, then `--mp`, consulted, falling back to
the sequential `TileVisitor`. -/
def chooseVisitorKind (a : Args) (env : Env) : VisitorKind :=
  if a.tiles ≠ "" then
    VisitorKind.keyList (env.taskKeys a.tiles)
  else if a.mt then
    VisitorKind.multithreaded (if a.concurrency > 0 then some a.concurrency else none)
  else if a.mp then
    VisitorKind.multiprocess
      (if a.concurrency > 0 then some a.concurrency else none)
      (if a.batchSize > 0 then some a.batchSize else none)
      (baseCommandTokens a)
  else
    VisitorKind.sequential

/-- The `writeXML` flag: initialized to true and cleared exactly when a task
file makes this process a worker (source lines 145, 244-245). -/
def coordinatorWritesXML (a : Args) : Bool :=
  decide (a.tiles = "")

/-- The extents accumulated from the `--index` sources (source lines 153-174):
for each occurrence, one bounds per feature of that source, each feature's
geometry bounds transformed into the map's spatial reference. -/
def indexExtents (env : Env) : List String → List Bounds
  | [] => []
  | f :: fs => (env.featureBounds f).map env.transformToMapSRS ++ indexExtents env fs

/-- The visitor as configured before the packaging phase: min/max level from
the (last occurrence of the) level flags with defaults 0 and 5, and the extent
list built from every `--bounds` occurrence followed by the `--index` feature
extents (source lines 113-130, 153-174, 343-352). -/
def configuredVisitor (a : Args) (env : Env) : VisitorState :=
  { kind := chooseVisitorKind a env
    minLevel := readLast 0 a.minLevelArgs
    maxLevel := readLast 5 a.maxLevelArgs
    extents := a.boundsArgs ++ indexExtents env a.indexArgs }

/-- The `dynamic_cast<MultiprocessTileVisitor*>` at source line 374: the saved
base command when the visitor is multiprocess, `none` otherwise. -/
def visitorMpBase (v : VisitorState) : Option (List String) :=
  match v.kind with
  | VisitorKind.multiprocess _ _ b => some b
  | _ => none

/-- The flag used when amending the base command per layer. -/
def layerFlag : LayerKind → String
  | LayerKind.image => "--image"
  | LayerKind.elevation => "--elevation"

/-- `mp->setBaseCommand(baseCommand + " --image " + i)` (and the elevation
analogue) performed before each layer of the all-layers pass. -/
def cmdForLayer (base : Option (List String)) (k : LayerKind) (i : Nat) : Option (List String) :=
  base.map (fun b => b ++ [layerFlag k, toString i])

/-- One pass of the packaging phase over the given layer indices: for each
index, a `packager.run` with the packager's current extension and the visitor's
current base command, followed by a `packager.writeXML` when this process is
the coordinator. -/
def layerPass (k : LayerKind) (e : Option String) (cmd : Nat → Option (List String)) (wx : Bool) : List Nat → List PkgEvent
  | [] => []
  | i :: is =>
    PkgEvent.run { kind := k, idx := i, ext := e, baseCmd := cmd i }
      :: ((if wx then [PkgEvent.xml k i] else []) ++ layerPass k e cmd wx is)

/-- The tail of a successful `makeTMS` (source lines 513-529): attempt the
companion earth-file write exactly when `--out-earth` was given; a failed write
is logged (`OE_WARN`) and the function still returns 0. -/
def finishRun (a : Args) (env : Env) (v : VisitorState) (root : String) (tr : List PkgEvent) : RunResult :=
  { exitCode := 0
    visitor := some v
    destination := some root
    trace := tr
    earthWriteAttempted := decide (a.outEarth ≠ "")
    earthWriteFailed := decide (a.outEarth ≠ "") && !(env.writeNodeFileOk (outEarthFileOf a)) }

/-- The packaging phase of `makeTMS` (source lines 355-529): a single image
layer when `--image` gave a nonnegative index (exit 1 when the map has no such
layer), else a single elevation layer when `--elevation` did (with
`setExtension("tif")` first; exit 1 when missing), else every image layer
followed — after `setExtension("tif")` — by every elevation layer, the base
command being amended with the layer index before each run in that mode. -/
def layerPhase (a : Args) (env : Env) : RunResult :=
  let v := configuredVisitor a env
  let mpBase := visitorMpBase v
  let wx := coordinatorWritesXML a
  let root := rootFolderOf a
  if a.imageLayerIndex ≥ 0 then
    if a.imageLayerIndex.toNat < env.numImageLayers then
      finishRun a env v root
        (layerPass LayerKind.image none (fun _ => mpBase) wx [a.imageLayerIndex.toNat])
    else
      { exitCode := 1, visitor := some v, destination := some root }
  else if a.elevationLayerIndex ≥ 0 then
    if a.elevationLayerIndex.toNat < env.numElevationLayers then
      finishRun a env v root
        (layerPass LayerKind.elevation (some "tif") (fun _ => mpBase) wx [a.elevationLayerIndex.toNat])
    else
      { exitCode := 1, visitor := some v, destination := some root }
  else
    finishRun a env v root
      (layerPass LayerKind.image none (fun i => cmdForLayer mpBase LayerKind.image i) wx
          (List.range env.numImageLayers)
        ++ layerPass LayerKind.elevation (some "tif") (fun i => cmdForLayer mpBase LayerKind.elevation i) wx
          (List.range env.numElevationLayers))

/-- `makeTMS`: usage error (-1) when no valid earth file loads, usage error
(-1) when the root output folder does not exist after the creation attempt —
both before any layer is packaged — otherwise the packaging phase. -/
def makeTMS (a : Args) (env : Env) : RunResult :=
  if env.mapValid = false then { exitCode := -1 }
  else if env.dirExistsAfterMkdir (rootFolderOf a) = false then { exitCode := -1 }
  else layerPhase a env

/-- `main`: dispatch to `makeTMS` when `--tms` was given, else print usage and
return -1. -/
def mainRun (a : Args) (env : Env) : RunResult :=
  if a.tms then makeTMS a env else { exitCode := -1 }

/-- The reconstructed worker base command of the run's visitor, when the run
selected the multiprocess strategy. -/
def visitorBaseCommand (r : RunResult) : Option (List String) :=
  match r.visitor with
  | some v => visitorMpBase v
  | none => none

/-- Number of `writeXML` events in a trace. -/
def xmlCount : List PkgEvent → Nat
  | [] => 0
  | PkgEvent.xml _ _ :: t => xmlCount t + 1
  | PkgEvent.run _ :: t => xmlCount t

/-- True when the trace is an alternation of `run`/`writeXML` pairs, each
`writeXML` addressing exactly the layer whose run immediately precedes it: the
manifest is emitted once per packaged layer, right after that layer's run. -/
def pairedRunXml : List PkgEvent → Bool
  | [] => true
  | PkgEvent.run c :: PkgEvent.xml k i :: t =>
      if c.kind = k ∧ c.idx = i then pairedRunXml t else false
  | _ => false

/-! Concrete inputs used by the closed evaluation theorems below. -/

/-- Sample bounds. -/
def bndA : Bounds := { xMin := 0, yMin := 0, xMax := 10, yMax := 10 }

/-- Sample bounds. -/
def bndB : Bounds := { xMin := 5, yMin := 5, xMax := 20, yMax := 20 }

/-- A worker invocation that also carries both strategy flags. -/
def w1Args : Args :=
  { tms := true, argv := ["in.earth"], tiles := "tasks.txt", mt := true, mp := true }

/-- An environment whose task file holds one key. -/
def w1Env : Env :=
  { taskKeys := fun _ => [{ level := 1, column := 2, row := 3 }] }

/-- A worker invocation addressing image layer 0. -/
def w2WorkerArgs : Args :=
  { tms := true, argv := ["in.earth"], tiles := "tasks.txt", imageLayerIndex := 0 }

/-- A coordinator invocation over all layers. -/
def w2CoordArgs : Args :=
  { tms := true, argv := ["in.earth"] }

/-- A map with two image layers and one elevation layer. -/
def w2Env : Env :=
  { numImageLayers := 2, numElevationLayers := 1 }

/-- A multiprocess coordinator invocation carrying `--overwrite` and
`--ext jpg`. -/
def c3Args : Args :=
  { tms := true, argv := ["--tms", "--mp", "--overwrite", "--ext", "jpg", "input.earth"],
    ext := "jpg", overwrite := true, mp := true }

/-- A map with one image layer. -/
def c3Env : Env :=
  { numImageLayers := 1 }

/-- The base command the source builds for `c3Args`. -/
def c3ExpectedBase : List String :=
  ["osgearth_package2", "--tms", "--extension", "jpg", "--elevation-pixel-depth", "32",
   "input.earth"]

/-- An invocation requesting image layer 2 of a one-image-layer map. -/
def w4Args : Args :=
  { tms := true, argv := ["in.earth"], imageLayerIndex := 2 }

/-- A map with one image layer. -/
def w4Env : Env :=
  { numImageLayers := 1 }

/-- A plain invocation. -/
def w5Args : Args :=
  { tms := true, argv := ["in.earth"] }

/-- An environment in which no directory creation takes effect. -/
def w5Env : Env :=
  { dirExistsAfterMkdir := fun _ => false }

/-- An invocation requesting a companion earth file. -/
def w6Args : Args :=
  { tms := true, argv := ["in.earth"], outEarth := "o.earth" }

/-- An environment in which every node-file write fails. -/
def w6Env : Env :=
  { numImageLayers := 1, writeNodeFileOk := fun _ => false }

/-- An invocation addressing elevation layer 0 with an `--ext` override. -/
def w7Args : Args :=
  { tms := true, argv := ["in.earth"], ext := "jpg", elevationLayerIndex := 0 }

/-- A map with one elevation layer. -/
def w7Env : Env :=
  { numElevationLayers := 1 }

/-- An invocation with one explicit bounds and one index shapefile. -/
def w8Args : Args :=
  { tms := true, argv := ["in.earth"], boundsArgs := [bndA], indexArgs := ["idx.shp"] }

/-- An environment whose index source holds one feature with bounds `bndB`. -/
def w8Env : Env :=
  { featureBounds := fun _ => [bndB] }

/-- An invocation giving `--min-level` twice and `--max-level` never. -/
def w9Args : Args :=
  { tms := true, argv := ["in.earth"], minLevelArgs := [2, 3] }

/-- A plain environment. -/
def w9Env : Env := {}

/-- An invocation without `--out`. -/
def w10Args : Args :=
  { tms := true, argv := ["file.earth"] }

/-- A plain environment. -/
def w10Env : Env := {}

/-! Helper lemmas shared by the claim theorems. -/

theorem readLast_eq_getLast (d : Nat) (l : List Nat) :
    readLast d l = (l.getLast?).getD d := by
  induction l generalizing d with
  | nil => rfl
  | cons x xs ih =>
    cases xs with
    | nil => rfl
    | cons y ys =>
      have h1 : readLast d (x :: y :: ys) = readLast x (y :: ys) := rfl
      rw [h1, ih x, List.getLast?_cons_cons]
      cases h : (y :: ys).getLast? with
      | none => simp at h
      | some z => rfl

theorem makeTMS_run (a : Args) (env : Env) (hmap : env.mapValid = true)
    (hdir : env.dirExistsAfterMkdir (rootFolderOf a) = true) :
    makeTMS a env = layerPhase a env := by
  simp [makeTMS, hmap, hdir]

theorem layerPhase_visitor (a : Args) (env : Env) :
    (layerPhase a env).visitor = some (configuredVisitor a env) := by
  simp only [layerPhase]
  repeat' split
  all_goals simp [finishRun]

theorem layerPhase_destination (a : Args) (env : Env) :
    (layerPhase a env).destination = some (rootFolderOf a) := by
  simp only [layerPhase]
  repeat' split
  all_goals simp [finishRun]

theorem layerPhase_exitCode (a : Args) (env : Env) :
    (layerPhase a env).exitCode = 0 ∨ (layerPhase a env).exitCode = 1 := by
  simp only [layerPhase]
  repeat' split
  all_goals simp [finishRun]

theorem run_mem_layerPass {k : LayerKind} {e : Option String}
    {cmd : Nat → Option (List String)} {wx : Bool} {is : List Nat} {c : RunCall}
    (h : PkgEvent.run c ∈ layerPass k e cmd wx is) : c.kind = k ∧ c.ext = e := by
  induction is with
  | nil => simp [layerPass] at h
  | cons i is ih =>
    rw [layerPass] at h
    rcases List.mem_cons.mp h with h1 | h2
    · injection h1 with hc
      subst hc
      exact ⟨rfl, rfl⟩
    · rcases List.mem_append.mp h2 with h3 | h4
      · cases wx <;> simp at h3
      · exact ih h4

theorem xmlCount_append (l1 l2 : List PkgEvent) :
    xmlCount (l1 ++ l2) = xmlCount l1 + xmlCount l2 := by
  induction l1 with
  | nil => simp [xmlCount]
  | cons e t ih =>
    cases e with
    | run c => simp [xmlCount, ih]
    | xml k i =>
      simp [xmlCount, ih]
      omega

theorem xmlCount_layerPass_worker (k : LayerKind) (e : Option String)
    (cmd : Nat → Option (List String)) (is : List Nat) :
    xmlCount (layerPass k e cmd false is) = 0 := by
  induction is with
  | nil => rfl
  | cons i is ih => simp [layerPass, xmlCount, ih]

theorem pairedRunXml_layerPass (k : LayerKind) (e : Option String)
    (cmd : Nat → Option (List String)) (is : List Nat) (t : List PkgEvent) :
    pairedRunXml (layerPass k e cmd true is ++ t) = pairedRunXml t := by
  induction is with
  | nil => rfl
  | cons i is ih => simp [layerPass, pairedRunXml, ih]

theorem pairedRunXml_layerPass_nil (k : LayerKind) (e : Option String)
    (cmd : Nat → Option (List String)) (is : List Nat) :
    pairedRunXml (layerPass k e cmd true is) = true := by
  have h := pairedRunXml_layerPass k e cmd is []
  simpa using h

/-! Claim theorems. -/

/-- C1: whenever `--tiles <file>` supplies a nonempty task-file name (and the
run gets past loading the map and creating the output folder), the run's
visitor is a `TileKeyListVisitor` whose key set is exactly the keys loaded from
that task file, regardless of the `--mt` and `--mp` flags. -/
theorem worker_uses_keylist_visitor (a : Args) (env : Env)
    (hmap : env.mapValid = true)
    (hdir : env.dirExistsAfterMkdir (rootFolderOf a) = true)
    (ht : a.tiles ≠ "") :
    ∃ v, (makeTMS a env).visitor = some v ∧
      v.kind = VisitorKind.keyList (env.taskKeys a.tiles) := by
  refine ⟨configuredVisitor a env, ?_, ?_⟩
  · rw [makeTMS_run a env hmap hdir, layerPhase_visitor]
  · simp [configuredVisitor, chooseVisitorKind, ht]

/-- C1 witness: a concrete worker invocation that also carries `--mt` and
`--mp` still gets the key-list visitor over the task file's keys. -/
theorem worker_uses_keylist_visitor_witness :
    ∃ v, (makeTMS w1Args w1Env).visitor = some v ∧
      v.kind = VisitorKind.keyList (w1Env.taskKeys w1Args.tiles) :=
  worker_uses_keylist_visitor w1Args w1Env rfl rfl (by decide)

/-- C5: when the root output folder does not exist after the creation attempt,
`makeTMS` aborts with the (non-zero) usage exit code -1 before any layer is
packaged: the trace holds no packager call at all. -/
theorem mkdir_failure_aborts (a : Args) (env : Env)
    (hmap : env.mapValid = true)
    (hdir : env.dirExistsAfterMkdir (rootFolderOf a) = false) :
    (makeTMS a env).exitCode = -1 ∧ (makeTMS a env).trace = [] ∧
      (makeTMS a env).exitCode ≠ 0 := by
  simp [makeTMS, hmap, hdir]

/-- C5 witness. -/
theorem mkdir_failure_aborts_witness :
    (makeTMS w5Args w5Env).exitCode = -1 ∧ (makeTMS w5Args w5Env).trace = [] ∧
      (makeTMS w5Args w5Env).exitCode ≠ 0 :=
  mkdir_failure_aborts w5Args w5Env rfl rfl

/-- C8: the extent list configured on the visitor is exactly every `--bounds`
occurrence, in order, followed by one extent per feature of each `--index`
source, each feature's bounds put through the reprojection into the map's
spatial reference — all added before the run. -/
theorem visitor_extents_exact (a : Args) (env : Env)
    (hmap : env.mapValid = true)
    (hdir : env.dirExistsAfterMkdir (rootFolderOf a) = true) :
    ∃ v, (makeTMS a env).visitor = some v ∧
      v.extents = a.boundsArgs ++ indexExtents env a.indexArgs := by
  refine ⟨configuredVisitor a env, ?_, rfl⟩
  rw [makeTMS_run a env hmap hdir, layerPhase_visitor]

/-- C8 witness: one `--bounds` box and one single-feature index source yield
exactly those two extents, in that order. -/
theorem visitor_extents_exact_witness :
    ∃ v, (makeTMS w8Args w8Env).visitor = some v ∧
      v.extents = w8Args.boundsArgs ++ indexExtents w8Env w8Args.indexArgs :=
  visitor_extents_exact w8Args w8Env rfl rfl

/-- C9: with `--min-level` absent the visitor's minimum level is 0, with
`--max-level` absent its maximum level is the finite default 5, and in general
each level is the value of the last occurrence of its flag. -/
theorem level_defaults_and_last_wins (a : Args) (env : Env)
    (hmap : env.mapValid = true)
    (hdir : env.dirExistsAfterMkdir (rootFolderOf a) = true) :
    ∃ v, (makeTMS a env).visitor = some v ∧
      (a.minLevelArgs = [] → v.minLevel = 0) ∧
      (a.maxLevelArgs = [] → v.maxLevel = 5) ∧
      v.minLevel = (a.minLevelArgs.getLast?).getD 0 ∧
      v.maxLevel = (a.maxLevelArgs.getLast?).getD 5 := by
  refine ⟨configuredVisitor a env, ?_, ?_, ?_, ?_, ?_⟩
  · rw [makeTMS_run a env hmap hdir, layerPhase_visitor]
  · intro h
    simp [configuredVisitor, readLast, h]
  · intro h
    simp [configuredVisitor, readLast, h]
  · exact readLast_eq_getLast 0 a.minLevelArgs
  · exact readLast_eq_getLast 5 a.maxLevelArgs

/-- C9 witness: `--min-level 2 --min-level 3` and no `--max-level` give levels
3 and 5. -/
theorem level_defaults_and_last_wins_witness :
    ∃ v, (makeTMS w9Args w9Env).visitor = some v ∧
      (w9Args.minLevelArgs = [] → v.minLevel = 0) ∧
      (w9Args.maxLevelArgs = [] → v.maxLevel = 5) ∧
      v.minLevel = (w9Args.minLevelArgs.getLast?).getD 0 ∧
      v.maxLevel = (w9Args.maxLevelArgs.getLast?).getD 5 :=
  level_defaults_and_last_wins w9Args w9Env rfl rfl

/-- C10: with `--out` absent the run does not fail with a usage error — the
destination silently defaults to the earth-file path with `.tms_repo` appended
and the packaging phase runs against that folder. -/
theorem default_out_folder (a : Args) (env : Env)
    (hmap : env.mapValid = true)
    (hout : a.out = none)
    (hdir : env.dirExistsAfterMkdir (findArgumentWithExtension a.argv ++ ".tms_repo") = true) :
    (makeTMS a env).destination = some (findArgumentWithExtension a.argv ++ ".tms_repo") ∧
      (makeTMS a env).exitCode ≠ -1 := by
  have hroot : rootFolderOf a = findArgumentWithExtension a.argv ++ ".tms_repo" := by
    simp [rootFolderOf, hout]
  have hdir2 : env.dirExistsAfterMkdir (rootFolderOf a) = true := by
    rw [hroot]
    exact hdir
  rw [makeTMS_run a env hmap hdir2]
  refine ⟨?_, ?_⟩
  · rw [layerPhase_destination, hroot]
  · rcases layerPhase_exitCode a env with h | h <;> omega

/-- C10 witness. -/
theorem default_out_folder_witness :
    (makeTMS w10Args w10Env).destination =
        some (findArgumentWithExtension w10Args.argv ++ ".tms_repo") ∧
      (makeTMS w10Args w10Env).exitCode ≠ -1 :=
  default_out_folder w10Args w10Env rfl rfl rfl

/-- C2: a process given `--tiles` (a worker) never calls `writeXML`, while a
coordinator's trace is exactly an alternation of `run`/`writeXML` pairs — the
manifest is emitted once per packaged layer, right after that layer's run
completes. -/
theorem manifest_once_per_layer (a : Args) (env : Env) :
    (a.tiles ≠ "" → xmlCount (makeTMS a env).trace = 0) ∧
    (a.tiles = "" → pairedRunXml (makeTMS a env).trace = true) := by
  constructor
  · intro ht
    have hwx : coordinatorWritesXML a = false := by
      simp [coordinatorWritesXML, ht]
    cases hmv : env.mapValid with
    | false => simp [makeTMS, hmv, xmlCount]
    | true =>
      cases hdr : env.dirExistsAfterMkdir (rootFolderOf a) with
      | false => simp [makeTMS, hmv, hdr, xmlCount]
      | true =>
        rw [makeTMS_run a env hmv hdr]
        simp only [layerPhase, hwx]
        repeat' split
        all_goals simp [finishRun, xmlCount, xmlCount_append, xmlCount_layerPass_worker]
  · intro ht
    have hwx : coordinatorWritesXML a = true := by
      simp [coordinatorWritesXML, ht]
    cases hmv : env.mapValid with
    | false => simp [makeTMS, hmv, pairedRunXml]
    | true =>
      cases hdr : env.dirExistsAfterMkdir (rootFolderOf a) with
      | false => simp [makeTMS, hmv, hdr, pairedRunXml]
      | true =>
        rw [makeTMS_run a env hmv hdr]
        simp only [layerPhase, hwx]
        repeat' split
        all_goals
          simp [finishRun, pairedRunXml, pairedRunXml_layerPass, pairedRunXml_layerPass_nil]

/-- C2 witness: a concrete worker emits no manifest; a concrete coordinator's
trace pairs each layer run with one immediate manifest write. -/
theorem manifest_once_per_layer_witness :
    xmlCount (makeTMS w2WorkerArgs w2Env).trace = 0 ∧
      pairedRunXml (makeTMS w2CoordArgs w2Env).trace = true :=
  ⟨(manifest_once_per_layer w2WorkerArgs w2Env).1 (by decide),
    (manifest_once_per_layer w2CoordArgs w2Env).2 rfl⟩

/-- C7: every `packager.run` on an elevation layer happens with the packager's
extension set to `tif`, in every invocation and regardless of `--ext` (which
is never applied to the packager at all). -/
theorem elevation_layers_use_tif (a : Args) (env : Env) (c : RunCall)
    (hc : PkgEvent.run c ∈ (makeTMS a env).trace)
    (hk : c.kind = LayerKind.elevation) :
    c.ext = some "tif" := by
  cases hmv : env.mapValid with
  | false =>
    rw [makeTMS] at hc
    simp [hmv] at hc
  | true =>
    cases hdr : env.dirExistsAfterMkdir (rootFolderOf a) with
    | false =>
      rw [makeTMS] at hc
      simp [hmv, hdr] at hc
    | true =>
      rw [makeTMS_run a env hmv hdr] at hc
      simp only [layerPhase] at hc
      split at hc
      · split at hc
        · simp only [finishRun] at hc
          have h := run_mem_layerPass hc
          rw [hk] at h
          exact absurd h.1 (by simp)
        · simp at hc
      · split at hc
        · split at hc
          · simp only [finishRun] at hc
            exact (run_mem_layerPass hc).2
          · simp at hc
        · simp only [finishRun] at hc
          rcases List.mem_append.mp hc with h1 | h2
          · have h := run_mem_layerPass h1
            rw [hk] at h
            exact absurd h.1 (by simp)
          · exact (run_mem_layerPass h2).2

/-- C7 witness: the elevation run of a concrete invocation that also passes
`--ext jpg` carries extension `tif`. -/
theorem elevation_layers_use_tif_witness :
    RunCall.ext { kind := LayerKind.elevation, idx := 0, ext := some "tif", baseCmd := none }
      = some "tif" :=
  elevation_layers_use_tif w7Args w7Env
    { kind := LayerKind.elevation, idx := 0, ext := some "tif", baseCmd := none }
    (by decide) rfl

/-- C6: when the companion earth-file write requested by `--out-earth` fails,
the failure is only recorded (logged) and the all-layers run still exits 0. -/
theorem out_earth_failure_nonfatal (a : Args) (env : Env)
    (hmap : env.mapValid = true)
    (hdir : env.dirExistsAfterMkdir (rootFolderOf a) = true)
    (himg : a.imageLayerIndex < 0)
    (helev : a.elevationLayerIndex < 0)
    (hoe : a.outEarth ≠ "")
    (hw : env.writeNodeFileOk (outEarthFileOf a) = false) :
    (makeTMS a env).exitCode = 0 ∧
      (makeTMS a env).earthWriteAttempted = true ∧
      (makeTMS a env).earthWriteFailed = true := by
  rw [makeTMS_run a env hmap hdir]
  simp only [layerPhase]
  rw [if_neg (by omega), if_neg (by omega)]
  simp [finishRun, hoe, hw]

/-- C6 witness. -/
theorem out_earth_failure_nonfatal_witness :
    (makeTMS w6Args w6Env).exitCode = 0 ∧
      (makeTMS w6Args w6Env).earthWriteAttempted = true ∧
      (makeTMS w6Args w6Env).earthWriteFailed = true :=
  out_earth_failure_nonfatal w6Args w6Env rfl rfl (by decide) (by decide) (by decide) rfl

/-- C4: the exit code is -1 without `--tms` or when no valid earth file loads,
1 when the layer index requested via `--image`/`--elevation` has no layer in
the map, and 0 on every successfully completed packaging run. -/
theorem exit_codes (a : Args) (env : Env) :
    (a.tms = false → (mainRun a env).exitCode = -1) ∧
    (a.tms = true → env.mapValid = false → (mainRun a env).exitCode = -1) ∧
    (a.tms = true → env.mapValid = true →
      env.dirExistsAfterMkdir (rootFolderOf a) = true →
      ((a.imageLayerIndex ≥ 0 → env.numImageLayers ≤ a.imageLayerIndex.toNat →
          (mainRun a env).exitCode = 1) ∧
        (a.imageLayerIndex < 0 → a.elevationLayerIndex ≥ 0 →
          env.numElevationLayers ≤ a.elevationLayerIndex.toNat →
          (mainRun a env).exitCode = 1) ∧
        (a.imageLayerIndex ≥ 0 → a.imageLayerIndex.toNat < env.numImageLayers →
          (mainRun a env).exitCode = 0) ∧
        (a.imageLayerIndex < 0 → a.elevationLayerIndex ≥ 0 →
          a.elevationLayerIndex.toNat < env.numElevationLayers →
          (mainRun a env).exitCode = 0) ∧
        (a.imageLayerIndex < 0 → a.elevationLayerIndex < 0 →
          (mainRun a env).exitCode = 0))) := by
  refine ⟨?_, ?_, ?_⟩
  · intro h
    simp [mainRun, h]
  · intro ht hm
    simp [mainRun, ht, makeTMS, hm]
  · intro ht hm hd
    have hrun : mainRun a env = layerPhase a env := by
      simp [mainRun, ht, makeTMS_run a env hm hd]
    refine ⟨?_, ?_, ?_, ?_, ?_⟩
    · intro hi hn
      rw [hrun]
      simp only [layerPhase]
      rw [if_pos hi, if_neg (by omega)]
    · intro hi he hn
      rw [hrun]
      simp only [layerPhase]
      rw [if_neg (by omega), if_pos he, if_neg (by omega)]
    · intro hi hn
      rw [hrun]
      simp only [layerPhase]
      rw [if_pos hi, if_pos hn]
      simp [finishRun]
    · intro hi he hn
      rw [hrun]
      simp only [layerPhase]
      rw [if_neg (by omega), if_pos he, if_pos hn]
      simp [finishRun]
    · intro hi he
      rw [hrun]
      simp only [layerPhase]
      rw [if_neg (by omega), if_neg (by omega)]
      simp [finishRun]

/-- C4 witness: requesting image layer 2 of a one-image-layer map exits 1. -/
theorem exit_codes_witness : (mainRun w4Args w4Env).exitCode = 1 :=
  ((exit_codes w4Args w4Env).2.2 rfl rfl rfl).1 (by decide) (by decide)

/-- C3 evaluation at the failing input `--tms --mp --overwrite --ext jpg
input.earth`: the base command reconstructed for workers contains no
`--overwrite` token (line 296 of the source uses `<`, a discarded comparison,
instead of `<<`) and carries the extension only under `--extension`, a token
the worker's parser never reads (it reads `--ext`). -/
theorem mp_base_command_eval :
    visitorBaseCommand (makeTMS c3Args c3Env) = some c3ExpectedBase ∧
      "--overwrite" ∉ c3ExpectedBase ∧
      "--ext" ∉ c3ExpectedBase ∧
      "--extension" ∈ c3ExpectedBase :=
  ⟨by decide, by decide, by decide, by decide⟩
